import Mathlib

/-!
Verification of the Me-API Playground profile CRUD service.

A shallow embedding of the server's data model, middleware, and route
handlers, translated from the JavaScript source:
- `src/middleware/auth.js` (`authenticateToken`, `login`, `requireAuth`)
- `src/middleware/validation.js` (the `paginate` helper, and the
  `/api/profile` router with its POST/PUT/DELETE handlers it is bundled
  with)
- `src/middleware/errorHandler.js` (`AppError`, `errorHandler`)
- the query router (`/api/projects`, `/api/search`, ...)

External effects are modelled explicitly: the Prisma store is a `Store`
value threaded through handlers, `jwt.verify` and `bcrypt.compare` are
function parameters, and the database clock is a `now : Nat` parameter.
JavaScript truthiness on strings and numbers is modelled where the source
relies on it (absent fields are `Option.none`, `x || d` on a number maps
`0` to `d`).
-/

namespace MeApi

/-! ## Data model

Mirrors the four Prisma tables: `Profile`, `Skill`, `Project`,
`WorkExperience`.  Ids and timestamps are `Nat`; dates are the strings the
API stores.  `links` is the (name, url) pair list stored as a JSON blob. -/

structure Profile where
  id : Nat
  name : String
  email : String
  education : Option String
  githubUrl : Option String
  linkedinUrl : Option String
  portfolioUrl : Option String
  createdAt : Nat
deriving DecidableEq, Repr

structure Skill where
  profileId : Nat
  skillName : String
  proficiencyLevel : Nat
deriving DecidableEq, Repr

structure Project where
  id : Nat
  profileId : Nat
  title : String
  description : String
  links : List (String × String)
  createdAt : Nat
deriving DecidableEq, Repr

structure WorkExperience where
  id : Nat
  profileId : Nat
  company : String
  position : String
  startDate : String
  endDate : Option String
  description : Option String
deriving DecidableEq, Repr

/-- The relational store: the four tables. Child rows point at their
profile through `profileId`. -/
structure Store where
  profiles : List Profile
  skills : List Skill
  projects : List Project
  workExperience : List WorkExperience
deriving DecidableEq, Repr

def emptyStore : Store := ⟨[], [], [], []⟩

/-- Rows of the skill table belonging to one profile. -/
def skillsOf (s : Store) (pid : Nat) : List Skill :=
  s.skills.filter (fun sk => sk.profileId == pid)

/-- Rows of the project table belonging to one profile. -/
def projectsOf (s : Store) (pid : Nat) : List Project :=
  s.projects.filter (fun p => p.profileId == pid)

/-- Rows of the work-experience table belonging to one profile. -/
def worksOf (s : Store) (pid : Nat) : List WorkExperience :=
  s.workExperience.filter (fun w => w.profileId == pid)

/-! ## String helpers

`contains`-with-`mode: 'insensitive'` in Prisma is case-insensitive
substring matching; embedded as character-list scanning. -/

/-- `needle` is a leading segment of `hay` (on character lists). -/
def leadsChars : List Char → List Char → Bool
  | [], _ => true
  | _ :: _, [] => false
  | a :: as, b :: bs => a == b && leadsChars as bs

/-- `needle` occurs contiguously somewhere in `hay` (on character lists). -/
def hasSubChars (needle : List Char) : List Char → Bool
  | [] => needle.isEmpty
  | c :: rest => leadsChars needle (c :: rest) || hasSubChars needle rest

/-- Case-insensitive substring test: Prisma `contains` with
`mode: 'insensitive'`. -/
def containsCI (hay needle : String) : Bool :=
  hasSubChars (needle.data.map Char.toLower) (hay.data.map Char.toLower)

/-- Whitespace removed from both ends: `q.trim()`. -/
def trimChars (cs : List Char) : List Char :=
  ((cs.dropWhile Char.isWhitespace).reverse.dropWhile Char.isWhitespace).reverse

/-- `String.prototype.trim` on the character list of the string. -/
def jsTrim (s : String) : String :=
  ⟨trimChars s.data⟩

/-- `split(' ')` on character lists: cut at every single space,
keeping empty segments, exactly like the JavaScript method. -/
def splitSpaceChars : List Char → List (List Char)
  | [] => [[]]
  | c :: rest =>
    let r := splitSpaceChars rest
    if c == ' ' then [] :: r
    else
      match r with
      | [] => [[c]]
      | seg :: segs => (c :: seg) :: segs

/-- `s.split(' ')` as a list of strings. -/
def jsSplitSpace (s : String) : List String :=
  (splitSpaceChars s.data).map (fun cs => ⟨cs⟩)

/-! ## Auth middleware (`src/middleware/auth.js`) -/

/-- The decoded JWT payload: the claims `login` signs. -/
structure Claims where
  id : Nat
  username : String
  role : String
deriving DecidableEq, Repr

/-- Outcome of `jwt.verify(token, JWT_SECRET, cb)`: success with a decoded
payload, a `TokenExpiredError`, or any other `JsonWebTokenError`.  The
verifier itself is a parameter of the middleware. -/
inductive VerifyResult where
  | ok (user : Claims)
  | expiredErr
  | invalidErr
deriving DecidableEq, Repr

/-- The slice of an HTTP request the auth middleware reads: the method and
the raw `Authorization` header (`none` when the header is absent). -/
structure HttpRequest where
  method : String
  authorization : Option String
deriving DecidableEq, Repr

/-- Result of an auth middleware step: either a JSON denial response was
sent (status, `error`, `code`) and the protected handler never runs, or
`next()` was called, with `req.user` set to the decoded claims when a
token was checked. -/
inductive AuthResult where
  | denied (status : Nat) (error : String) (code : String)
  | next (user : Option Claims)
deriving DecidableEq, Repr

/-- `authHeader && authHeader.split(' ')[1]`: the token part of the
header; `none` models both an absent header and a missing second part. -/
def extractToken (authHeader : Option String) : Option String :=
  authHeader.bind (fun s => (jsSplitSpace s).get? 1)

/-- `authenticateToken` from `src/middleware/auth.js`: falsy token (absent
header, no second part, or empty string) means 401 `NO_TOKEN`; a failed
`jwt.verify` — expired or otherwise — means 403 `INVALID_TOKEN`; otherwise
`next()` with `req.user` set. -/
def authenticateToken (verify : String → VerifyResult) (req : HttpRequest) :
    AuthResult :=
  match extractToken req.authorization with
  | none => .denied 401 "Access denied. No token provided." "NO_TOKEN"
  | some t =>
    if t.isEmpty then
      .denied 401 "Access denied. No token provided." "NO_TOKEN"
    else
      match verify t with
      | .ok user => .next (some user)
      | .expiredErr => .denied 403 "Access denied. Invalid token." "INVALID_TOKEN"
      | .invalidErr => .denied 403 "Access denied. Invalid token." "INVALID_TOKEN"

/-- `requireAuth` from `src/middleware/auth.js`: every GET is passed
through (`next()` without touching the token); any other method goes
through `authenticateToken`. -/
def requireAuth (verify : String → VerifyResult) (req : HttpRequest) :
    AuthResult :=
  if req.method == "GET" then .next none
  else authenticateToken verify req

/-! ## Login (`src/middleware/auth.js`) -/

/-- One record of the in-memory user store. -/
structure UserRec where
  id : Nat
  username : String
  password : String
  role : String
deriving DecidableEq, Repr

/-- The single hardcoded user of `src/middleware/auth.js` (the stored
password is a bcrypt hash). -/
def users : List UserRec :=
  [⟨1, "admin", "$2a$10$92IXUNpkjO0rOQ5byMi.Ye4oKoEa3Ro9llC/.og/at2.uheWG/igi", "admin"⟩]

/-- The login request body; `none` models an absent field. -/
structure LoginBody where
  username : Option String
  password : Option String
deriving DecidableEq, Repr

/-- Response of the login endpoint. -/
inductive LoginResult where
  | err (status : Nat) (error : String) (code : String)
  | ok (token : String) (user : Claims)
deriving DecidableEq, Repr

/-- JavaScript falsiness of a possibly-absent string: absent or empty. -/
def strFalsy : Option String → Bool
  | none => true
  | some s => s.isEmpty

/-- `login` from `src/middleware/auth.js`.  `compare` stands for
`bcrypt.compare(password, storedHash)` and `sign` for `jwt.sign` over the
claims; both are effectful library calls passed in as functions. -/
def login (compare : String → String → Bool) (sign : Claims → String)
    (body : LoginBody) : LoginResult :=
  if strFalsy body.username || strFalsy body.password then
    .err 400 "Username and password are required" "MISSING_CREDENTIALS"
  else
    match users.find? (fun u => some u.username == body.username) with
    | none => .err 401 "Invalid credentials" "INVALID_CREDENTIALS"
    | some u =>
      if compare (body.password.getD "") u.password then
        .ok (sign ⟨u.id, u.username, u.role⟩) ⟨u.id, u.username, u.role⟩
      else
        .err 401 "Invalid credentials" "INVALID_CREDENTIALS"

/-! ## Profile request bodies

The validated shape of a `POST`/`PUT /api/profile` body
(`validateProfile` in `src/middleware/validation.js`): a skill is either
a bare string or an object with a `name` (and optional `level`); a
project needs `title` and `description`; work rows need `company`,
`position` and `start_date`.  `Option.none` on a collection models the
field being absent from the payload. -/

inductive SkillInput where
  | str (s : String)
  | obj (name : String) (level : Option Nat)
deriving DecidableEq, Repr

structure ProjectInput where
  title : String
  description : String
  links : Option (List (String × String))
deriving DecidableEq, Repr

structure WorkInput where
  company : String
  position : String
  start_date : String
  end_date : Option String
  description : Option String
deriving DecidableEq, Repr

structure ProfileBody where
  name : String
  email : String
  education : Option String
  github_url : Option String
  linkedin_url : Option String
  portfolio_url : Option String
  skills : Option (List SkillInput)
  projects : Option (List ProjectInput)
  workExperience : Option (List WorkInput)
deriving DecidableEq, Repr

/-- `skill.level || 1`: JavaScript `||` sends both an absent level and a
level of `0` to the default `1`. -/
def levelOrOne : Option Nat → Nat
  | none => 1
  | some 0 => 1
  | some l => l

/-- The skill-row constructor shared by the POST and PUT handlers:
`skillName: typeof skill === 'string' ? skill : skill.name`,
`proficiencyLevel: typeof skill === 'string' ? 1 : (skill.level || 1)`. -/
def mkSkill (pid : Nat) : SkillInput → Skill
  | .str s => ⟨pid, s, 1⟩
  | .obj n lvl => ⟨pid, n, levelOrOne lvl⟩

/-- Project rows inserted for a profile: autoincremented ids from `base`,
`links: project.links || []`, `createdAt` stamped by the database clock. -/
def mkProjectRows (pid now : Nat) : Nat → List ProjectInput → List Project
  | _, [] => []
  | base, p :: ps =>
    ⟨base, pid, p.title, p.description, p.links.getD [], now⟩ ::
      mkProjectRows pid now (base + 1) ps

/-- Work-experience rows inserted for a profile, ids from `base`. -/
def mkWorkRows (pid : Nat) : Nat → List WorkInput → List WorkExperience
  | _, [] => []
  | base, w :: ws =>
    ⟨base, pid, w.company, w.position, w.start_date, w.end_date, w.description⟩ ::
      mkWorkRows pid (base + 1) ws

/-- Next autoincrement id for the profile table. -/
def nextProfileId (s : Store) : Nat :=
  (s.profiles.map (fun p => p.id)).foldl max 0 + 1

/-- Next autoincrement id for the project table. -/
def nextProjectId (s : Store) : Nat :=
  (s.projects.map (fun p => p.id)).foldl max 0 + 1

/-- Next autoincrement id for the work-experience table. -/
def nextWorkId (s : Store) : Nat :=
  (s.workExperience.map (fun w => w.id)).foldl max 0 + 1

/-! ## Profile CRUD handlers (the `/api/profile` router) -/

/-- Outcome of a route handler body: a successful JSON response, a thrown
`AppError(message, status, code)` caught by `asyncHandler` and passed to
the central error handler, or a database error surfaced by Prisma (such
as `P2002`, a unique-constraint violation). -/
inductive ApiResult (α : Type) where
  | ok (status : Nat) (val : α)
  | appErr (message : String) (status : Nat) (code : String)
  | prismaErr (code : String)
deriving DecidableEq, Repr

/-- `prisma.profile.findFirst({ orderBy: { createdAt: 'desc' } })`: the
most-recently-created profile.  The database's tie order is unspecified;
ties keep the earlier row of the list. -/
def mostRecent : List Profile → Option Profile
  | [] => none
  | p :: ps => some (ps.foldl (fun a b => if a.createdAt < b.createdAt then b else a) p)

/-- Prisma `update` semantics for an optional scalar: an `undefined`
field in `data` leaves the column unchanged. -/
def updOpt (new old : Option String) : Option String :=
  match new with
  | some v => some v
  | none => old

/-- `POST /api/profile` handler: reject with 409 `PROFILE_EXISTS` when a
profile with the body's email exists; otherwise create the profile row
and all nested child rows in one operation and answer 201 with the new
profile id. -/
def postProfile (s : Store) (b : ProfileBody) (now : Nat) :
    ApiResult Nat × Store :=
  match s.profiles.find? (fun p => p.email == b.email) with
  | some _ =>
    (.appErr "Profile with this email already exists. Use PUT to update." 409
      "PROFILE_EXISTS", s)
  | none =>
    let pid := nextProfileId s
    let newP : Profile :=
      ⟨pid, b.name, b.email, b.education, b.github_url, b.linkedin_url,
        b.portfolio_url, now⟩
    (.ok 201 pid,
      ⟨s.profiles ++ [newP],
        s.skills ++ (b.skills.getD []).map (mkSkill pid),
        s.projects ++ mkProjectRows pid now (nextProjectId s) (b.projects.getD []),
        s.workExperience ++ mkWorkRows pid (nextWorkId s) (b.workExperience.getD [])⟩)

/-- True when the body's email collides with a profile other than the
update target. -/
def emailConflict (s : Store) (target : Profile) (b : ProfileBody) : Bool :=
  s.profiles.any (fun p => !(p.id == target.id) && p.email == b.email)

/-- `PUT /api/profile` handler: target the most-recently-created profile
(404 `PROFILE_NOT_FOUND` when none exists); then, in one transaction,
update the scalar columns, delete every skill/project/work row of the
target, and bulk-insert the collections supplied in the body (an absent
collection inserts nothing, exactly like an empty array).

Modelled from the spec: the Prisma schema file is not under `src/`; per
the spec's data model ("email unique across profiles", §3) and the
README's `email TEXT UNIQUE NOT NULL`, the database rejects an update
that would duplicate another profile's email with a `P2002`
unique-constraint error, rolling the transaction back. -/
def putProfile (s : Store) (b : ProfileBody) (now : Nat) :
    ApiResult String × Store :=
  match mostRecent s.profiles with
  | none => (.appErr "Profile not found" 404 "PROFILE_NOT_FOUND", s)
  | some target =>
    if emailConflict s target b then
      (.prismaErr "P2002", s)
    else
      let updated : Profile :=
        { target with
            name := b.name
            email := b.email
            education := updOpt b.education target.education
            githubUrl := updOpt b.github_url target.githubUrl
            linkedinUrl := updOpt b.linkedin_url target.linkedinUrl
            portfolioUrl := updOpt b.portfolio_url target.portfolioUrl }
      (.ok 200 "Profile updated successfully",
        ⟨s.profiles.map (fun p => if p.id == target.id then updated else p),
          s.skills.filter (fun sk => !(sk.profileId == target.id)) ++
            (b.skills.getD []).map (mkSkill target.id),
          s.projects.filter (fun p => !(p.profileId == target.id)) ++
            mkProjectRows target.id now (nextProjectId s) (b.projects.getD []),
          s.workExperience.filter (fun w => !(w.profileId == target.id)) ++
            mkWorkRows target.id (nextWorkId s) (b.workExperience.getD [])⟩)

/-- `DELETE /api/profile` handler: `prisma.profile.deleteMany({})` — every
profile row, not one id; 404 `PROFILE_NOT_FOUND` exactly when the
affected count is zero.  Child rows go with their parents (cascade per
the schema described in the spec's data model). -/
def deleteProfiles (s : Store) : ApiResult String × Store :=
  if s.profiles.length == 0 then
    (.appErr "Profile not found" 404 "PROFILE_NOT_FOUND", s)
  else
    (.ok 200 "Profile deleted successfully", emptyStore)

/-- `DELETE /api/profile/projects/:id` handler; the argument is the
`parseInt` result (`none` for `NaN`). -/
def deleteProjectById (s : Store) (pid : Option Nat) : ApiResult String × Store :=
  match pid with
  | none => (.appErr "Invalid project ID" 400 "INVALID_PROJECT_ID", s)
  | some i =>
    if s.projects.any (fun p => p.id == i) then
      (.ok 200 "Project deleted successfully",
        { s with projects := s.projects.filter (fun p => !(p.id == i)) })
    else
      (.appErr "Project not found" 404 "PROJECT_NOT_FOUND", s)

/-- `DELETE /api/profile/work-experience/:id` handler; the argument is
the `parseInt` result (`none` for `NaN`). -/
def deleteWorkById (s : Store) (wid : Option Nat) : ApiResult String × Store :=
  match wid with
  | none => (.appErr "Invalid work experience ID" 400 "INVALID_WORK_ID", s)
  | some i =>
    if s.workExperience.any (fun w => w.id == i) then
      (.ok 200 "Work experience deleted successfully",
        { s with workExperience := s.workExperience.filter (fun w => !(w.id == i)) })
    else
      (.appErr "Work experience not found" 404 "WORK_NOT_FOUND", s)

/-- The claimed store invariant: no two stored profiles share an email. -/
def emailsNodup (s : Store) : Prop :=
  (s.profiles.map (fun p => p.email)).Nodup

/-- The primary-key invariant the database guarantees: no two stored
profiles share an id. -/
def idsNodup (s : Store) : Prop :=
  (s.profiles.map (fun p => p.id)).Nodup

/-! ## Central error handler (`src/middleware/errorHandler.js`) -/

/-- The slice of a thrown error object the handler inspects: `message`,
`statusCode` and `code` (present on `AppError`s and Prisma errors),
`name` (distinguishes JWT/validation/cast errors), `isOperational`
(`true` only on `AppError`s), and the per-field messages a
`ValidationError` would carry. -/
structure ErrObj where
  message : String
  statusCode : Option Nat
  code : Option String
  name : String
  isOperational : Bool
  validationMessages : List String
deriving DecidableEq, Repr

/-- An `AppError(message, statusCode, code)` instance as the error
handler sees it. -/
def appErrObj (msg : String) (status : Nat) (code : String) : ErrObj :=
  ⟨msg, some status, some code, "Error", true, []⟩

/-- The JSON error response the handler sends. -/
structure ErrResponse where
  status : Nat
  error : String
  code : String
deriving DecidableEq, Repr

/-- `error.code || 'INTERNAL_ERROR'` in the response line. -/
def codeOrInternal : Option String → String
  | none => "INTERNAL_ERROR"
  | some c => if c.isEmpty then "INTERNAL_ERROR" else c

/-- The reassignment cascade of `errorHandler`: the Prisma-code switch
(guarded only by `if (err.code)`, so ANY truthy code enters it and a
non-`P*` code falls to the `default:` 500 `DATABASE_ERROR` branch), then
the `err.name` rewrites, then the non-operational fallback. -/
def resolveErr (err : ErrObj) : ErrObj :=
  let e1 :=
    match err.code with
    | none => err
    | some c =>
      if c.isEmpty then err
      else if c == "P2002" then appErrObj "Duplicate field value" 400 "DUPLICATE_ENTRY"
      else if c == "P2025" then appErrObj "Record not found" 404 "NOT_FOUND"
      else if c == "P2003" then
        appErrObj "Foreign key constraint failed" 400 "FOREIGN_KEY_CONSTRAINT"
      else appErrObj "Database error" 500 "DATABASE_ERROR"
  let e2 := if err.name == "JsonWebTokenError" then appErrObj "Invalid token" 401 "INVALID_TOKEN" else e1
  let e3 := if err.name == "TokenExpiredError" then appErrObj "Token expired" 401 "TOKEN_EXPIRED" else e2
  let e4 :=
    if err.name == "ValidationError" then
      appErrObj (String.intercalate ", " err.validationMessages) 400 "VALIDATION_ERROR"
    else e3
  let e5 := if err.name == "CastError" then appErrObj "Invalid ID format" 400 "INVALID_ID" else e4
  if !e5.isOperational then appErrObj "Something went wrong" 500 "INTERNAL_ERROR" else e5

/-- `errorHandler` from `src/middleware/errorHandler.js`: resolve the
error, then respond `status(error.statusCode || 500)` with
`{error: error.message, code: error.code || 'INTERNAL_ERROR'}`. -/
def errorHandlerJs (err : ErrObj) : ErrResponse :=
  let e := resolveErr err
  ⟨(match e.statusCode with | none => 500 | some 0 => 500 | some n => n),
    e.message, codeOrInternal e.code⟩

/-- Modelled from the spec: `server.js` is not under `src/`; per the spec
(§7, all errors "translated to a response" by the uniform handler) it
installs `errorHandler` as the final middleware, so an `AppError` thrown
in a route handler reaches the client through `errorHandlerJs`. -/
def pipelineError (msg : String) (status : Nat) (code : String) : ErrResponse :=
  errorHandlerJs (appErrObj msg status code)

/-! ## Query router (`src/unnamed/part_003`): `/api/projects`, `/api/search` -/

/-- The `paginate` middleware's limit: `parseInt(req.query.limit) || 10`
capped with `Math.min(limit, 100)`; `0` is falsy, so it also defaults. -/
def paginateLimit : Option Nat → Nat
  | none => min 10 100
  | some 0 => min 10 100
  | some n => min n 100

/-- The `paginate` middleware's offset:
`Math.max(parseInt(req.query.offset) || 0, 0)`. -/
def paginateOffset : Option Nat → Nat
  | none => 0
  | some n => n

/-- Insertion into a list kept in descending order by `ge`. -/
def insertDescBy {α : Type} (ge : α → α → Bool) (x : α) : List α → List α
  | [] => [x]
  | y :: ys => if ge x y then x :: y :: ys else y :: insertDescBy ge x ys

/-- Insertion sort, descending by `ge`; stands for the database's
`orderBy ... 'desc'` (whose tie order is unspecified). -/
def sortDescBy {α : Type} (ge : α → α → Bool) : List α → List α
  | [] => []
  | x :: xs => insertDescBy ge x (sortDescBy ge xs)

/-- Query string of `GET /api/projects` after validation. -/
structure ProjectsQuery where
  skill : Option String
  limit : Option Nat
  offset : Option Nat
deriving DecidableEq, Repr

/-- The relation filter of the projects route: the project's profile has
some skill whose name contains the filter, case-insensitively. -/
def projectMatchesSkill (s : Store) (skill : String) (p : Project) : Bool :=
  s.skills.any (fun sk => sk.profileId == p.profileId && containsCI sk.skillName skill)

/-- The `where` clause: a truthy `skill` filters, otherwise all rows. -/
def projectMatches (s : Store) (q : ProjectsQuery) : List Project :=
  match q.skill with
  | none => s.projects
  | some sk => if sk.isEmpty then s.projects else s.projects.filter (projectMatchesSkill s sk)

/-- The matches in the response order, `orderBy: { createdAt: 'desc' }`. -/
def sortedProjectMatches (s : Store) (q : ProjectsQuery) : List Project :=
  sortDescBy (fun a b => Nat.ble b.createdAt a.createdAt) (projectMatches s q)

structure Pagination where
  limit : Nat
  offset : Nat
  total : Nat
  hasMore : Bool
deriving DecidableEq, Repr

structure ProjectsResponse where
  projects : List Project
  pagination : Pagination
deriving DecidableEq, Repr

/-- `GET /api/projects` handler: page of matches (`skip: offset`,
`take: limit`) plus `{limit, offset, total, hasMore}` with
`hasMore: offset + limit < totalCount`. -/
def projectsHandler (s : Store) (q : ProjectsQuery) : ProjectsResponse :=
  let limit := paginateLimit q.limit
  let offset := paginateOffset q.offset
  let total := (projectMatches s q).length
  ⟨((sortedProjectMatches s q).drop offset).take limit,
    ⟨limit, offset, total, decide (offset + limit < total)⟩⟩

/-- Query string of `GET /api/search` (this route installs no validator;
`limit`/`offset` are the `parseInt` results). -/
structure SearchQuery where
  q : Option String
  type : Option String
  limit : Option Nat
  offset : Option Nat
deriving DecidableEq, Repr

/-- The four result buckets.  The handler's snake_case reshaping of each
row is a bijective field renaming and is left out; buckets carry the
stored rows. -/
structure SearchResults where
  profiles : List Profile
  projects : List Project
  skills : List Skill
  workExperience : List WorkExperience
deriving DecidableEq, Repr

/-- Search response: the ad-hoc 400 for a blank `q` whose body is only
`{error: 'Search query is required'}` — the `code` slot records that no
`code` field is present — or the results object. -/
inductive SearchResponse where
  | badRequest (error : String) (code : Option String)
  | ok (query : String) (searchType : String) (results : SearchResults)
      (limit offset : Nat)
deriving DecidableEq, Repr

/-- `type === 'all' || type === cat`: whether a category runs. -/
def runsType (typ cat : String) : Bool :=
  typ == "all" || typ == cat

/-- Profiles bucket: substring match on name/email/education (a `NULL`
education matches nothing), paged. -/
def profilesBucket (s : Store) (term : String) (limit offset : Nat) : List Profile :=
  (((s.profiles.filter (fun p =>
      containsCI p.name term || containsCI p.email term ||
        (match p.education with | some ed => containsCI ed term | none => false))).drop
    offset).take limit)

/-- Projects bucket: title/description match, newest first, paged. -/
def projectsBucket (s : Store) (term : String) (limit offset : Nat) : List Project :=
  (((sortDescBy (fun a b => Nat.ble b.createdAt a.createdAt)
      (s.projects.filter (fun p =>
        containsCI p.title term || containsCI p.description term))).drop
    offset).take limit)

/-- Skills bucket: name match, highest proficiency first, paged. -/
def skillsBucket (s : Store) (term : String) (limit offset : Nat) : List Skill :=
  (((sortDescBy (fun a b => Nat.ble b.proficiencyLevel a.proficiencyLevel)
      (s.skills.filter (fun sk => containsCI sk.skillName term))).drop
    offset).take limit)

/-- Work bucket: company/position/description match (a `NULL` description
matches nothing), latest start first, paged. -/
def workBucket (s : Store) (term : String) (limit offset : Nat) : List WorkExperience :=
  (((sortDescBy (fun a b => decide (a.startDate ≥ b.startDate))
      (s.workExperience.filter (fun w =>
        containsCI w.company term || containsCI w.position term ||
          (match w.description with | some d => containsCI d term | none => false)))).drop
    offset).take limit)

/-- `GET /api/search` handler: 400 when `q` is absent or blank after
trimming; otherwise the four buckets, each filled only when its category
runs (`type` defaults to `'all'`, `limit` to 20, `offset` to 0). -/
def searchHandler (s : Store) (qry : SearchQuery) : SearchResponse :=
  let typ := qry.type.getD "all"
  let limit := qry.limit.getD 20
  let offset := qry.offset.getD 0
  match qry.q with
  | none => .badRequest "Search query is required" none
  | some q =>
    if (jsTrim q).isEmpty then .badRequest "Search query is required" none
    else
      let term := jsTrim q
      .ok q typ
        ⟨if runsType typ "profiles" then profilesBucket s term limit offset else [],
          if runsType typ "projects" then projectsBucket s term limit offset else [],
          if runsType typ "skills" then skillsBucket s term limit offset else [],
          if runsType typ "work" then workBucket s term limit offset else []⟩
        limit offset

/-! ## Concrete fixtures (mirroring the repository's test data) -/

def demoProfile : Profile :=
  ⟨1, "Test User", "test@example.com", some "Computer Science", none, none, none, 5⟩

def demoStore : Store :=
  ⟨[demoProfile], [⟨1, "JavaScript", 5⟩],
    [⟨1, 1, "JavaScript Project", "A project built with JavaScript", [], 3⟩], []⟩

/-- A POST body reusing the stored profile's email. -/
def dupBody : ProfileBody :=
  ⟨"New User", "test@example.com", none, none, none, none, none, none, none⟩

/-- A POST body with a fresh email and all three child collections. -/
def freshBody : ProfileBody :=
  ⟨"New User", "new@example.com", some "CS", none, none, none,
    some [.str "Py", .obj "JS" (some 3)],
    some [⟨"T", "D", none⟩],
    some [⟨"ACME", "Dev", "2023-01", none, none⟩]⟩

/-- A PUT body supplying an empty skills array, no projects field, and
one work row. -/
def putBody : ProfileBody :=
  ⟨"Updated User", "updated@example.com", some "Updated", none, none, none,
    some [], none, some [⟨"ACME", "Dev", "2023-01", none, none⟩]⟩

/-! ## Theorems -/

/-- C2: `requireAuth` passes every GET request through (`next()` with no
user attached, independent of the verifier and of any token), and for
every other method whose request carries no Authorization bearer token it
responds 401 with code `NO_TOKEN` — a `denied` result, so the protected
handler never runs. -/
theorem requireAuth_gate (verify : String → VerifyResult) (req : HttpRequest) :
    (req.method = "GET" → requireAuth verify req = AuthResult.next none) ∧
    (req.method ≠ "GET" →
      (extractToken req.authorization = none ∨
        extractToken req.authorization = some "") →
      requireAuth verify req =
        AuthResult.denied 401 "Access denied. No token provided." "NO_TOKEN") := by
  refine ⟨fun h => ?_, fun hm ht => ?_⟩
  · simp [requireAuth, h]
  · have hm' : (req.method == "GET") = false := by
      simp only [beq_eq_false_iff_ne, ne_eq]
      exact hm
    rcases ht with h | h <;>
      simp [requireAuth, hm', authenticateToken, h, String.isEmpty]

/-- Witness for C2: a GET sails through even with a garbage verifier; a
POST with no Authorization header is denied with `NO_TOKEN`. -/
theorem requireAuth_gate_witness :
    requireAuth (fun _ => VerifyResult.invalidErr) ⟨"GET", some "Bearer x"⟩ =
      AuthResult.next none ∧
    requireAuth (fun _ => VerifyResult.invalidErr) ⟨"POST", none⟩ =
      AuthResult.denied 401 "Access denied. No token provided." "NO_TOKEN" :=
  ⟨(requireAuth_gate _ _).1 rfl,
    (requireAuth_gate _ _).2 (by decide) (Or.inl rfl)⟩

/-- C3 counterexample: a mutating request whose bearer token verifies as
expired is answered with code `INVALID_TOKEN`, not the claimed
`TOKEN_EXPIRED` — `authenticateToken` has a single branch for every
`jwt.verify` failure. -/
theorem expired_token_counterexample :
    requireAuth (fun _ => VerifyResult.expiredErr) ⟨"POST", some "Bearer abc"⟩ =
      AuthResult.denied 403 "Access denied. Invalid token." "INVALID_TOKEN" ∧
    "INVALID_TOKEN" ≠ "TOKEN_EXPIRED" := by
  exact ⟨by decide, by decide⟩

/-- C3 amended: every mutating request presenting an expired bearer token
gets status 403 with code `INVALID_TOKEN` — the same code as any other
verification failure; no expiry-specific code is produced on this path
(the central error handler's `TOKEN_EXPIRED` mapping is never reached,
because `authenticateToken` responds directly). -/
theorem expired_token_invalid_code (verify : String → VerifyResult)
    (req : HttpRequest) (t : String)
    (hm : req.method ≠ "GET")
    (ht : extractToken req.authorization = some t)
    (hne : t.isEmpty = false)
    (hv : verify t = VerifyResult.expiredErr) :
    requireAuth verify req =
      AuthResult.denied 403 "Access denied. Invalid token." "INVALID_TOKEN" := by
  have hm' : (req.method == "GET") = false := by
    simp only [beq_eq_false_iff_ne, ne_eq]
    exact hm
  simp [requireAuth, hm', authenticateToken, ht, hne, hv]

/-- Witness for the amended C3. -/
theorem expired_token_invalid_code_witness :
    requireAuth (fun _ => VerifyResult.expiredErr) ⟨"POST", some "Bearer abc"⟩ =
      AuthResult.denied 403 "Access denied. Invalid token." "INVALID_TOKEN" :=
  expired_token_invalid_code _ _ "abc" (by decide) (by decide) (by decide) rfl

/-- C10: credential-failure indistinguishability of `login`.  With both
fields present, an unknown username and a known username with a wrong
password produce the very same response: 401,
`{error: 'Invalid credentials', code: 'INVALID_CREDENTIALS'}`. -/
theorem login_indistinguishable
    (compare : String → String → Bool) (sign : Claims → String)
    (b1 b2 : LoginBody) (u : UserRec)
    (h1u : strFalsy b1.username = false) (h1p : strFalsy b1.password = false)
    (h2u : strFalsy b2.username = false) (h2p : strFalsy b2.password = false)
    (hUnknown : users.find? (fun v => some v.username == b1.username) = none)
    (hKnown : users.find? (fun v => some v.username == b2.username) = some u)
    (hBad : compare (b2.password.getD "") u.password = false) :
    login compare sign b1 = login compare sign b2 ∧
    login compare sign b1 =
      LoginResult.err 401 "Invalid credentials" "INVALID_CREDENTIALS" := by
  simp [login, h1u, h1p, h2u, h2p, hUnknown, hKnown, hBad]

/-- Witness for C10: unknown user `nobody` versus `admin` with a wrong
password, under a comparator that rejects the password. -/
theorem login_indistinguishable_witness :
    login (fun _ _ => false) (fun _ => "t") ⟨some "nobody", some "pw"⟩ =
      login (fun _ _ => false) (fun _ => "t") ⟨some "admin", some "wrong"⟩ ∧
    login (fun _ _ => false) (fun _ => "t") ⟨some "nobody", some "pw"⟩ =
      LoginResult.err 401 "Invalid credentials" "INVALID_CREDENTIALS" :=
  login_indistinguishable (fun _ _ => false) (fun _ => "t") _ _
    ⟨1, "admin", "$2a$10$92IXUNpkjO0rOQ5byMi.Ye4oKoEa3Ro9llC/.og/at2.uheWG/igi", "admin"⟩
    (by decide) (by decide) (by decide) (by decide) (by decide) (by decide) rfl

/-- C4: the handler side of `DELETE /api/profile` is exactly as claimed —
it deletes every profile row and raises 404 `PROFILE_NOT_FOUND`
precisely when zero rows were affected — but the claimed HTTP response
never reaches the client: the central error handler's `if (err.code)`
switch rewrites the `AppError`, whose code is not a Prisma `P*` code,
into 500 `DATABASE_ERROR`.  The repository's own tests expect the 404
with code `PROFILE_NOT_FOUND`. -/
theorem deleteProfiles_pipeline_bug :
    deleteProfiles emptyStore =
      (.appErr "Profile not found" 404 "PROFILE_NOT_FOUND", emptyStore) ∧
    pipelineError "Profile not found" 404 "PROFILE_NOT_FOUND" =
      ⟨500, "Database error", "DATABASE_ERROR"⟩ ∧
    (deleteProfiles demoStore).1 = .ok 200 "Profile deleted successfully" ∧
    (deleteProfiles demoStore).2.profiles = [] := by
  exact ⟨rfl, by decide, by decide, by decide⟩

/-- C5: the handler side of `POST /api/profile` is as claimed — a
duplicate email raises 409 `PROFILE_EXISTS` leaving the store untouched,
and a fresh email creates the profile with all nested children and
returns the new id — but the 409 never reaches the client: the central
error handler rewrites the non-Prisma-coded `AppError` into 500
`DATABASE_ERROR`. -/
theorem postProfile_duplicate_pipeline_bug :
    postProfile demoStore dupBody 9 =
      (.appErr "Profile with this email already exists. Use PUT to update." 409
        "PROFILE_EXISTS", demoStore) ∧
    pipelineError "Profile with this email already exists. Use PUT to update." 409
        "PROFILE_EXISTS" =
      ⟨500, "Database error", "DATABASE_ERROR"⟩ ∧
    (postProfile demoStore freshBody 9).1 = .ok 201 2 ∧
    skillsOf (postProfile demoStore freshBody 9).2 2 =
      [⟨2, "Py", 1⟩, ⟨2, "JS", 3⟩] ∧
    projectsOf (postProfile demoStore freshBody 9).2 2 =
      [⟨2, 2, "T", "D", [], 9⟩] ∧
    worksOf (postProfile demoStore freshBody 9).2 2 =
      [⟨1, 2, "ACME", "Dev", "2023-01", none, none⟩] := by
  exact ⟨by decide, by decide, by decide, by decide, by decide, by decide⟩

/-- C9 counterexample: the blank-`q` 400 of `GET /api/search` is a JSON
error body whose only field is `error` — its `code` slot is `none`, so
this error response does not carry a `code` string as the claim
requires. -/
theorem search_blank_q_has_no_code :
    searchHandler demoStore ⟨some "", none, none, none⟩ =
      SearchResponse.badRequest "Search query is required" none := by
  decide

/-- C9 amended: every error response shaped by the central
`errorHandler` carries a non-empty string `code` field (falling back to
`INTERNAL_ERROR`) alongside its `error` message, but the query router's
ad-hoc blank-`q` 400 response carries only `error` and no `code`. -/
theorem errorHandler_code_present (e : ErrObj) :
    (errorHandlerJs e).code ≠ "" := by
  show codeOrInternal (resolveErr e).code ≠ ""
  cases h : (resolveErr e).code with
  | none => simp [codeOrInternal]
  | some c =>
    simp only [codeOrInternal]
    by_cases hc : c.isEmpty
    · simp [hc]
    · rw [if_neg (by simp [hc])]
      intro heq
      rw [heq] at hc
      exact hc rfl

/-- Witness for the amended C9: the handler's shaping of a concrete
`AppError` carries a code. -/
theorem errorHandler_code_present_witness :
    (errorHandlerJs (appErrObj "Profile not found" 404 "PROFILE_NOT_FOUND")).code ≠ "" :=
  errorHandler_code_present (appErrObj "Profile not found" 404 "PROFILE_NOT_FOUND")

/-- C6: `GET /api/search` answers 400 whenever `q` is missing or blank
after trimming; with `type=projects` only the projects bucket is
computed and the profiles/skills/workExperience buckets come back as
empty arrays; and with `type=all` every category runs. -/
theorem searchHandler_type_selects (s : Store) (qry : SearchQuery) :
    ((qry.q = none ∨ ∃ q0, qry.q = some q0 ∧ (jsTrim q0).isEmpty = true) →
      searchHandler s qry = .badRequest "Search query is required" none) ∧
    (∀ q0, qry.q = some q0 → (jsTrim q0).isEmpty = false →
      qry.type = some "projects" →
      searchHandler s qry =
        .ok q0 "projects"
          ⟨[], projectsBucket s (jsTrim q0) (qry.limit.getD 20) (qry.offset.getD 0),
            [], []⟩
          (qry.limit.getD 20) (qry.offset.getD 0)) ∧
    (∀ q0, qry.q = some q0 → (jsTrim q0).isEmpty = false →
      qry.type = some "all" →
      searchHandler s qry =
        .ok q0 "all"
          ⟨profilesBucket s (jsTrim q0) (qry.limit.getD 20) (qry.offset.getD 0),
            projectsBucket s (jsTrim q0) (qry.limit.getD 20) (qry.offset.getD 0),
            skillsBucket s (jsTrim q0) (qry.limit.getD 20) (qry.offset.getD 0),
            workBucket s (jsTrim q0) (qry.limit.getD 20) (qry.offset.getD 0)⟩
          (qry.limit.getD 20) (qry.offset.getD 0)) := by
  refine ⟨fun hb => ?_, fun q0 hq hne ht => ?_, fun q0 hq hne ht => ?_⟩
  · rcases hb with h | ⟨q0, hq, hblank⟩
    · simp [searchHandler, h]
    · simp [searchHandler, hq, hblank]
  · simp [searchHandler, hq, hne, ht, runsType]
  · simp [searchHandler, hq, hne, ht, runsType]

/-- Witness for C6 on the demo store: a whitespace query is rejected, and
a `type=projects` search returns empty profile/skill/work buckets. -/
theorem searchHandler_type_selects_witness :
    searchHandler demoStore ⟨some " ", some "projects", none, none⟩ =
      .badRequest "Search query is required" none ∧
    searchHandler demoStore ⟨some "Java", some "projects", none, none⟩ =
      .ok "Java" "projects"
        ⟨[], projectsBucket demoStore (jsTrim "Java") 20 0, [], []⟩ 20 0 :=
  ⟨(searchHandler_type_selects demoStore _).1 (Or.inr ⟨" ", rfl, by decide⟩),
    (searchHandler_type_selects demoStore _).2.1 "Java" rfl (by decide) rfl⟩

/-- Inserting into a descending-ordered list grows the length by one. -/
theorem insertDescBy_length {α : Type} (ge : α → α → Bool) (x : α) :
    ∀ l : List α, (insertDescBy ge x l).length = l.length + 1 := by
  intro l
  induction l with
  | nil => rfl
  | cons y ys ih =>
    by_cases h : ge x y = true
    · simp [insertDescBy, h]
    · simp only [insertDescBy, Bool.not_eq_true] at h ⊢
      simp [h, ih]

/-- The descending insertion sort preserves length. -/
theorem sortDescBy_length {α : Type} (ge : α → α → Bool) :
    ∀ l : List α, (sortDescBy ge l).length = l.length := by
  intro l
  induction l with
  | nil => rfl
  | cons x xs ih => simp [sortDescBy, insertDescBy_length, ih]

/-- C7: every `GET /api/projects` response holds at most `limit`
projects; an absent `limit` defaults to 10 and an absent `offset` to 0;
and `pagination.hasMore` is true exactly when `offset + limit` is below
the total match count — equivalently, exactly when matching projects
remain beyond the returned page of the response ordering. -/
theorem projectsHandler_pagination (s : Store) (q : ProjectsQuery) :
    (projectsHandler s q).projects.length ≤ (projectsHandler s q).pagination.limit ∧
    (q.limit = none → (projectsHandler s q).pagination.limit = 10) ∧
    (q.offset = none → (projectsHandler s q).pagination.offset = 0) ∧
    ((projectsHandler s q).pagination.hasMore = true ↔
      (projectsHandler s q).pagination.offset + (projectsHandler s q).pagination.limit <
        (projectsHandler s q).pagination.total) ∧
    ((projectsHandler s q).pagination.hasMore = true ↔
      (sortedProjectMatches s q).drop
          ((projectsHandler s q).pagination.offset +
            (projectsHandler s q).pagination.limit) ≠ []) := by
  refine ⟨?_, fun h => ?_, fun h => ?_, ?_, ?_⟩
  · show ((((sortedProjectMatches s q).drop _).take _).length ≤ _)
    rw [List.length_take]
    exact min_le_left _ _
  · simp [projectsHandler, paginateLimit, h]
  · simp [projectsHandler, paginateOffset, h]
  · exact decide_eq_true_iff
  · show decide _ = true ↔ _
    rw [decide_eq_true_iff, Ne, List.drop_eq_nil_iff, not_le, sortedProjectMatches,
      sortDescBy_length]
    exact Iff.rfl

/-- Witness for C7 on the demo store with no limit/offset supplied. -/
theorem projectsHandler_pagination_witness :
    (projectsHandler demoStore ⟨some "Java", none, none⟩).pagination.limit = 10 ∧
    (projectsHandler demoStore ⟨some "Java", none, none⟩).pagination.offset = 0 ∧
    (projectsHandler demoStore ⟨some "Java", none, none⟩).projects.length ≤
      (projectsHandler demoStore ⟨some "Java", none, none⟩).pagination.limit :=
  ⟨(projectsHandler_pagination demoStore _).2.1 rfl,
    (projectsHandler_pagination demoStore _).2.2.1 rfl,
    (projectsHandler_pagination demoStore _).1⟩

/-- Rows already excluded by a delete cannot resurface: filtering for a
predicate after filtering for its negation leaves nothing. -/
theorem filter_not_filter {α : Type} (f : α → Bool) :
    ∀ l : List α, (l.filter (fun x => !(f x))).filter f = [] := by
  intro l
  induction l with
  | nil => rfl
  | cons x xs ih =>
    by_cases h : f x = true
    · simp [List.filter_cons, h, ih]
    · simp only [Bool.not_eq_true] at h
      simp [List.filter_cons, h, ih]

/-- Skill rows are built for the requested profile. -/
theorem mkSkill_profileId (pid : Nat) (si : SkillInput) :
    (mkSkill pid si).profileId = pid := by
  cases si <;> rfl

/-- The freshly inserted skill rows all pass the profile filter. -/
theorem filter_profileId_map_mkSkill (pid : Nat) (l : List SkillInput) :
    (l.map (mkSkill pid)).filter (fun sk => sk.profileId == pid) =
      l.map (mkSkill pid) := by
  induction l with
  | nil => rfl
  | cons si ss ih => simp [List.filter_cons, mkSkill_profileId, ih]

/-- The freshly inserted project rows all pass the profile filter. -/
theorem filter_profileId_mkProjectRows (pid now : Nat) :
    ∀ (base : Nat) (l : List ProjectInput),
      (mkProjectRows pid now base l).filter (fun p => p.profileId == pid) =
        mkProjectRows pid now base l := by
  intro base l
  induction l generalizing base with
  | nil => rfl
  | cons p ps ih => simp [mkProjectRows, List.filter_cons, ih]

/-- The freshly inserted work rows all pass the profile filter. -/
theorem filter_profileId_mkWorkRows (pid : Nat) :
    ∀ (base : Nat) (l : List WorkInput),
      (mkWorkRows pid base l).filter (fun w => w.profileId == pid) =
        mkWorkRows pid base l := by
  intro base l
  induction l generalizing base with
  | nil => rfl
  | cons w ws ih => simp [mkWorkRows, List.filter_cons, ih]

/-- C1: `PUT /api/profile` with a valid body, when a profile exists (and
the database accepts the email), performs a true full replace on the
most-recently-created profile: afterwards its stored skill, project and
work-experience rows are exactly the sets built from the request body,
and a collection that is absent from the payload or supplied as an empty
array leaves zero rows of that kind. -/
theorem putProfile_full_replace (s : Store) (b : ProfileBody) (now : Nat)
    (target : Profile)
    (hT : mostRecent s.profiles = some target)
    (hC : emailConflict s target b = false) :
    (putProfile s b now).1 = .ok 200 "Profile updated successfully" ∧
    skillsOf (putProfile s b now).2 target.id =
      (b.skills.getD []).map (mkSkill target.id) ∧
    projectsOf (putProfile s b now).2 target.id =
      mkProjectRows target.id now (nextProjectId s) (b.projects.getD []) ∧
    worksOf (putProfile s b now).2 target.id =
      mkWorkRows target.id (nextWorkId s) (b.workExperience.getD []) ∧
    ((b.skills = none ∨ b.skills = some []) →
      skillsOf (putProfile s b now).2 target.id = []) ∧
    ((b.projects = none ∨ b.projects = some []) →
      projectsOf (putProfile s b now).2 target.id = []) ∧
    ((b.workExperience = none ∨ b.workExperience = some []) →
      worksOf (putProfile s b now).2 target.id = []) := by
  have h1 : (putProfile s b now).1 = .ok 200 "Profile updated successfully" := by
    simp [putProfile, hT, hC]
  have hs : skillsOf (putProfile s b now).2 target.id =
      (b.skills.getD []).map (mkSkill target.id) := by
    simp [putProfile, hT, hC, skillsOf, List.filter_append, filter_not_filter,
      filter_profileId_map_mkSkill]
  have hp : projectsOf (putProfile s b now).2 target.id =
      mkProjectRows target.id now (nextProjectId s) (b.projects.getD []) := by
    simp [putProfile, hT, hC, projectsOf, List.filter_append, filter_not_filter,
      filter_profileId_mkProjectRows]
  have hw : worksOf (putProfile s b now).2 target.id =
      mkWorkRows target.id (nextWorkId s) (b.workExperience.getD []) := by
    simp [putProfile, hT, hC, worksOf, List.filter_append, filter_not_filter,
      filter_profileId_mkWorkRows]
  refine ⟨h1, hs, hp, hw, fun h => ?_, fun h => ?_, fun h => ?_⟩
  · rcases h with h | h <;> rw [hs, h] <;> rfl
  · rcases h with h | h <;> rw [hp, h] <;> rfl
  · rcases h with h | h <;> rw [hw, h] <;> rfl

/-- Witness for C1 on the demo store: the update succeeds, and the empty
`skills` array wipes the previously stored skill rows. -/
theorem putProfile_full_replace_witness :
    (putProfile demoStore putBody 9).1 = .ok 200 "Profile updated successfully" ∧
    skillsOf (putProfile demoStore putBody 9).2 demoProfile.id = [] :=
  ⟨(putProfile_full_replace demoStore putBody 9 demoProfile (by decide) (by decide)).1,
    (putProfile_full_replace demoStore putBody 9 demoProfile (by decide)
      (by decide)).2.2.2.2.1 (Or.inr rfl)⟩

/-- Reading emails off the profile list after the PUT's in-place row
update: the replaced row contributes the updated email, every other row
its own. -/
theorem map_email_update (upd : Profile) (tid : Nat) :
    ∀ l : List Profile,
      (l.map (fun p => if p.id == tid then upd else p)).map (fun p => p.email) =
        l.map (fun p => if p.id == tid then upd.email else p.email) := by
  intro l
  induction l with
  | nil => rfl
  | cons p ps ih =>
    simp only [List.map_cons, ih]
    by_cases h : (p.id == tid) = true
    · rw [if_pos h, if_pos h]
    · rw [if_neg h, if_neg h]

/-- Core of the PUT case of the invariant: rewriting the email of the
(unique) row with id `tid` to a value no other row carries keeps the
email list duplicate-free. -/
theorem nodup_update_email (tid : Nat) (e : String) :
    ∀ l : List Profile,
      (l.map (fun p => p.id)).Nodup →
      (l.map (fun p => p.email)).Nodup →
      (∀ p ∈ l, p.id ≠ tid → p.email ≠ e) →
      (l.map (fun p => if p.id == tid then e else p.email)).Nodup := by
  intro l
  induction l with
  | nil => intro _ _ _; simp
  | cons p ps ih =>
    intro hid hem hno
    simp only [List.map_cons, List.nodup_cons] at hid hem ⊢
    obtain ⟨hpid, hid'⟩ := hid
    obtain ⟨hpem, hem'⟩ := hem
    refine ⟨?_, ih hid' hem' (fun q hq => hno q (List.mem_cons_of_mem _ hq))⟩
    by_cases hp : p.id = tid
    · rw [if_pos (by simpa using hp)]
      intro hmem
      rcases List.mem_map.mp hmem with ⟨q, hq, hqe⟩
      by_cases hqid : q.id = tid
      · exact hpid (List.mem_map.mpr ⟨q, hq, hqid.trans hp.symm⟩)
      · rw [if_neg (by simpa using hqid)] at hqe
        exact hno q (List.mem_cons_of_mem _ hq) hqid hqe
    · rw [if_neg (by simpa using hp)]
      intro hmem
      rcases List.mem_map.mp hmem with ⟨q, hq, hqe⟩
      by_cases hqid : q.id = tid
      · rw [if_pos (by simpa using hqid)] at hqe
        exact hno p (List.mem_cons_self _ _) hp hqe.symm
      · rw [if_neg (by simpa using hqid)] at hqe
        exact hpem (List.mem_map.mpr ⟨q, hq, hqe⟩)

/-- C8: email uniqueness is preserved by every store operation.  From a
state whose profiles have pairwise-distinct emails (and distinct primary
keys), POST, PUT, DELETE on `/api/profile` and the project/work row
deletes all leave a state whose profiles still have pairwise-distinct
emails.  (POST is guarded by its own existing-email lookup; PUT relies
on the spec-modelled database unique constraint on `email`, which makes
the transaction fail without touching the store on a conflicting
update.) -/
theorem email_uniqueness_invariant (s : Store) (b : ProfileBody) (now : Nat)
    (pid wid : Option Nat) (hid : idsNodup s) (he : emailsNodup s) :
    emailsNodup (postProfile s b now).2 ∧
    emailsNodup (putProfile s b now).2 ∧
    emailsNodup (deleteProfiles s).2 ∧
    emailsNodup (deleteProjectById s pid).2 ∧
    emailsNodup (deleteWorkById s wid).2 := by
  refine ⟨?_, ?_, ?_, ?_, ?_⟩
  · -- POST
    cases hf : s.profiles.find? (fun p => p.email == b.email) with
    | some p => simpa [postProfile, hf] using he
    | none =>
      have hnodupe : ∀ x ∈ s.profiles, x.email ≠ b.email := by
        intro x hx
        have := List.find?_eq_none.mp hf x hx
        simpa using this
      simp only [postProfile, hf, emailsNodup, List.map_append]
      rw [List.nodup_append]
      refine ⟨he, List.nodup_singleton _, ?_⟩
      intro a ha hb
      rcases List.mem_map.mp ha with ⟨x, hx, rfl⟩
      simp only [List.map_cons, List.map_nil, List.mem_cons, List.not_mem_nil,
        or_false] at hb
      exact hnodupe x hx hb
  · -- PUT
    cases hm : mostRecent s.profiles with
    | none => simpa [putProfile, hm] using he
    | some target =>
      by_cases hc : emailConflict s target b = true
      · simpa [putProfile, hm, hc] using he
      · have hc' : emailConflict s target b = false := by
          simpa using hc
        have hno : ∀ p ∈ s.profiles, p.id ≠ target.id → p.email ≠ b.email := by
          simpa [emailConflict] using hc'
        simp only [putProfile, hm, hc', Bool.false_eq_true, if_false, emailsNodup]
        rw [map_email_update]
        exact nodup_update_email target.id _ s.profiles hid he hno
  · -- DELETE /api/profile
    by_cases h : (s.profiles.length == 0) = true
    · simpa [deleteProfiles, h] using he
    · have h' : (s.profiles.length == 0) = false := by simpa using h
      simp [deleteProfiles, h', emailsNodup, emptyStore]
  · -- DELETE /api/profile/projects/:id
    cases pid with
    | none => simpa [deleteProjectById] using he
    | some i =>
      by_cases h : (s.projects.any (fun p => p.id == i)) = true
      · simpa [deleteProjectById, h, emailsNodup] using he
      · have h' : (s.projects.any (fun p => p.id == i)) = false := by simpa using h
        simpa [deleteProjectById, h', emailsNodup] using he
  · -- DELETE /api/profile/work-experience/:id
    cases wid with
    | none => simpa [deleteWorkById] using he
    | some i =>
      by_cases h : (s.workExperience.any (fun w => w.id == i)) = true
      · simpa [deleteWorkById, h, emailsNodup] using he
      · have h' : (s.workExperience.any (fun w => w.id == i)) = false := by
          simpa using h
        simpa [deleteWorkById, h', emailsNodup] using he

/-- Witness for C8 on the demo store: the invariant survives a creating
POST and a full-replace PUT. -/
theorem email_uniqueness_invariant_witness :
    emailsNodup (postProfile demoStore freshBody 9).2 ∧
    emailsNodup (putProfile demoStore putBody 9).2 :=
  ⟨(email_uniqueness_invariant demoStore freshBody 9 none none
      (by unfold idsNodup; decide) (by unfold emailsNodup; decide)).1,
    (email_uniqueness_invariant demoStore putBody 9 none none
      (by unfold idsNodup; decide) (by unfold emailsNodup; decide)).2.1⟩

end MeApi
